import Mathlib

/-!
Verification development for the Rookie lead-qualification webhook service.

The definitions below are a shallow embedding of the TypeScript/JavaScript
sources of the repository:

* `src/utils/validator.js` — `validateLead`, `extractDomain`;
* `src/services/aiService.ts` — code-fence stripping and the zod schemas
  `AIScoreResultSchema` / `JobAdDataSchema`, and the post-processing of
  `scoreLead` / `generateJobAd`;
* the SQL stored procedure `find_or_create_company` (IMPLEMENTATION.md);
* `src/services/emailService.js` — `sendAdminAlert`;
* `src/routes/webhook.ts` — the `POST /webhook` pipeline, embedded as a pure
  function from an environment of external-call outcomes to a response plus a
  trace of issued external effects.

JavaScript strings are modelled as Lean `String` (the sources and all inputs
of interest are ASCII-or-BMP text, where `Char`-wise operations agree with
JavaScript's UTF-16 ones).  JSON numbers are modelled as `Rat`.
`undefined`/missing string fields are modelled as `""`, matching the source's
uniform use of `(x || '')` and truthiness tests on those fields.  All
definitions are structurally recursive so that concrete runs evaluate inside
the kernel.
-/

/-- Character class of the JavaScript `\s` regex escape (the members that can
actually occur in the data handled by this service). -/
def jsWhitespace (c : Char) : Bool :=
  c = ' ' || c = '\t' || c = '\n' || c = '\r' || c = '\x0b' || c = '\x0c' || c = '\xa0'

/-- Boolean test that `pat` is a prefix of `cs`. -/
def charsPrefix : List Char → List Char → Bool
  | [], _ => true
  | _ :: _, [] => false
  | p :: ps, c :: cs => decide (p = c) && charsPrefix ps cs

/-- Boolean test that `pat` occurs contiguously inside `s`. -/
def charsContain : List Char → List Char → Bool
  | [], pat => pat.isEmpty
  | c :: cs, pat => charsPrefix pat (c :: cs) || charsContain cs pat

/-- Substring containment, modelling JavaScript `String.prototype.includes`
and unanchored literal-alternation regex tests. -/
def strContains (s pat : String) : Bool := charsContain s.data pat.data

/-- JavaScript `String.prototype.toLowerCase`, for the ASCII letters that
occur in the embedded constants and scenarios. -/
def jsToLower (s : String) : String := ⟨s.data.map Char.toLower⟩

/-- Boolean test that `s` ends with `pat`. -/
def charsEndWith (s pat : List Char) : Bool := charsPrefix pat.reverse s.reverse

/-- Drop the last `n` characters of a string. -/
def dropRightChars (s : String) (n : Nat) : String :=
  ⟨s.data.take (s.data.length - n)⟩

/-- JavaScript `String.prototype.split` with a single-character separator:
the list of (possibly empty) segments between occurrences of `sep`. -/
def splitAtChar (sep : Char) : List Char → List (List Char)
  | [] => [[]]
  | c :: cs =>
      if c = sep then [] :: splitAtChar sep cs
      else
        match splitAtChar sep cs with
        | [] => [[c]]
        | g :: gs => (c :: g) :: gs

/-- JavaScript `Math.round` on an exact rational: half-up rounding
(`⌊q + 1/2⌋`), which is what `Math.round` computes for the values arising
here. -/
def jsRound (q : Rat) : Int := Int.floor (q + 1/2)

/-- Test of the email regex `/^[^\s@]+@[^\s@]+\.[^\s@]+$/` from
`validateLead`: no whitespace, exactly one `@`, a nonempty local part, and a
dot in the domain part that is neither its first nor its last character. -/
def emailRegexValid (s : String) : Bool :=
  s.data.all (fun c => !jsWhitespace c) &&
  decide (s.data.count '@' = 1) &&
  (let parts := splitAtChar '@' s.data
   let localPart := parts.getD 0 []
   let domPart := parts.getD 1 []
   !localPart.isEmpty && !domPart.isEmpty && (domPart.drop 1).dropLast.contains '.')

/-- Character class `[\d\s\-\+\(\)]` of the phone regex in `validateLead`. -/
def phoneClassChar (c : Char) : Bool :=
  c.isDigit || jsWhitespace c || c = '-' || c = '+' || c = '(' || c = ')'

/-- Length of the longest run of characters satisfying `p`, with accumulator
`cur` for the current run and `best` for the best completed run. -/
def maxRunAux (p : Char → Bool) : List Char → Nat → Nat → Nat
  | [], cur, best => max cur best
  | c :: cs, cur, best =>
      if p c then maxRunAux p cs (cur + 1) best else maxRunAux p cs 0 (max cur best)

/-- Test of the phone regex `/[\d\s\-\+\(\)]{8,}/` from `validateLead`: the
string contains a run of at least 8 characters of the class. -/
def phoneRegexValid (s : String) : Bool :=
  decide (8 ≤ maxRunAux phoneClassChar s.data 0 0)

/-- Structured form data (`FormData` in `src/types/index.ts`), as assembled by
the webhook handler from the request body.  Missing optional fields are `""`.
The `id` field (a timestamp string) plays no role in any claim and is
omitted. -/
structure FormData where
  full_name : String := ""
  email : String := ""
  phone : String := ""
  company_name : String := ""
  industry : String := ""
  service_type : String := ""
  needs_description : String := ""
  subject : String := ""
  deriving Repr, DecidableEq

/-- The `validation` record built by `validateLead`.  Note the source stores
the raw description *length* (a number) as the fourth entry, not a boolean. -/
structure ValidationDetails where
  email_valid : Bool
  phone_valid : Bool
  company_filled : Bool
  needs_description_length : Nat
  needs_adequate : Bool
  contact_name_filled : Bool
  deriving Repr, DecidableEq

/-- A JavaScript value as it appears among `Object.values(validation)`:
a boolean or a number. -/
inductive JSVal where
  | b (v : Bool)
  | n (v : Nat)
  deriving Repr, DecidableEq

/-- The `v === true` test used by the score's filter in `validateLead`:
only the boolean `true` passes; a number never does. -/
def JSVal.isTrue : JSVal → Bool
  | .b true => true
  | _ => false

/-- `Object.values(validation)` in declaration order. -/
def validationValues (d : ValidationDetails) : List JSVal :=
  [.b d.email_valid, .b d.phone_valid, .b d.company_filled,
   .n d.needs_description_length, .b d.needs_adequate, .b d.contact_name_filled]

/-- `validFields` in `validateLead`: the number of entries strictly equal to
`true`. -/
def validFieldsOf (d : ValidationDetails) : Nat :=
  (validationValues d).countP (fun v => v.isTrue)

/-- The score `Math.round((validFields / 6) * 100)`, computed exactly on
naturals so that concrete runs reduce in the kernel;
`validationScoreOfCount_eq_round` below proves it equal to the rational
half-up rounding the source performs. -/
def validationScoreOfCount (k : Nat) : Int := ((200 * k + 6) / 12 : Nat)

/-- The integer score formula agrees with the source's
`Math.round((k / 6) * 100)` for every count `k`. -/
theorem validationScoreOfCount_eq_round (k : Nat) :
    validationScoreOfCount k = jsRound ((k : Rat) / 6 * 100) := by
  unfold validationScoreOfCount jsRound
  have h : (k : Rat) / 6 * 100 + 1/2 = ((200 * k + 6 : Nat) : Rat) / ((12 : Nat) : Rat) := by
    push_cast
    ring
  rw [h, Rat.floor_natCast_div_natCast]
  exact Int.ofNat_tdiv _ _

/-- Spam indicator 1: `/(viagra|cialis|casino|crypto|bitcoin)/i` on the needs
description (case-insensitive literal alternation). -/
def spamKeywordHit (d : String) : Bool :=
  strContains (jsToLower d) "viagra" || strContains (jsToLower d) "cialis" ||
  strContains (jsToLower d) "casino" || strContains (jsToLower d) "crypto" ||
  strContains (jsToLower d) "bitcoin"

/-- Spam indicator 2: `/(click here|buy now|limited offer)/i` on the needs
description. -/
def spamPhraseHit (d : String) : Bool :=
  strContains (jsToLower d) "click here" || strContains (jsToLower d) "buy now" ||
  strContains (jsToLower d) "limited offer"

/-- Spam indicator 3: `needs_description.includes('http')` (case-sensitive). -/
def spamUrlHit (d : String) : Bool := strContains d "http"

/-- Spam indicator 4: `email.match(/@(test|example|temp|fake)/i)` is non-null. -/
def spamEmailHit (e : String) : Bool :=
  strContains (jsToLower e) "@test" || strContains (jsToLower e) "@example" ||
  strContains (jsToLower e) "@temp" || strContains (jsToLower e) "@fake"

/-- The `spamIndicators` array of `validateLead`, in source order. -/
def spamIndicators (lead : FormData) : List Bool :=
  [spamKeywordHit lead.needs_description, spamPhraseHit lead.needs_description,
   spamUrlHit lead.needs_description, spamEmailHit lead.email]

/-- Number of spam indicators that fired (`spamIndicators.filter(v => v).length`). -/
def spamIndicatorCount (lead : FormData) : Nat :=
  (spamIndicators lead).countP (fun v => v)

/-- Result of `validateLead`: the input spread together with the score, the
spam flag and the detail record. -/
structure ValidatedLead extends FormData where
  validation_score : Int
  is_likely_spam : Bool
  validation_details : ValidationDetails
  deriving Repr, DecidableEq

/-- Embedding of `validateLead` from `src/utils/validator.js`. -/
def validateLead (lead : FormData) : ValidatedLead :=
  let validation : ValidationDetails :=
    { email_valid := emailRegexValid lead.email
      phone_valid := phoneRegexValid lead.phone
      company_filled := decide (lead.company_name.length > 2)
      needs_description_length := lead.needs_description.length
      needs_adequate := decide (lead.needs_description.length ≥ 50)
      contact_name_filled := decide (lead.full_name.length > 2) }
  let validFields := validFieldsOf validation
  let validationScore := validationScoreOfCount validFields
  let isLikelySpam := decide (2 ≤ spamIndicatorCount lead)
  { lead with
      validation_score := validationScore
      is_likely_spam := isLikelySpam
      validation_details := validation }

/-- The deny-list of consumer mail providers in `extractDomain`. -/
def personalDomains : List String :=
  ["gmail.com", "hotmail.com", "outlook.com", "icloud.com",
   "yahoo.com", "live.com", "hotmail.se", "outlook.se"]

/-- Drop all trailing characters of the `\s` class. -/
def dropTrailingWS (s : String) : String :=
  ⟨(s.data.reverse.dropWhile jsWhitespace).reverse⟩

/-- Boolean test that the last character of `s` is of the `\s` class. -/
def endsWithWS (s : String) : Bool :=
  match s.data.getLast? with
  | some c => jsWhitespace c
  | none => false

/-- One application of `.replace(/\s+ab$/i, '')` on an already-lowercased
string: if the string ends in `ab` preceded by at least one whitespace
character, remove the maximal whitespace run together with the `ab`. -/
def stripSuffixAB (s : String) : String :=
  if charsEndWith s.data "ab".data && endsWithWS (dropRightChars s 2) then
    dropTrailingWS (dropRightChars s 2)
  else s

/-- One application of `.replace(/\s+aktiebolag$/i, '')` on an already-
lowercased string. -/
def stripSuffixAktiebolag (s : String) : String :=
  if charsEndWith s.data "aktiebolag".data && endsWithWS (dropRightChars s 10) then
    dropTrailingWS (dropRightChars s 10)
  else s

/-- Remove every `\s`-class character (`.replace(/\s+/g, '')`). -/
def removeAllWS (s : String) : String :=
  ⟨s.data.filter (fun c => !jsWhitespace c)⟩

/-- The `cleanName` computation of `extractDomain`: lowercase, strip a
trailing `ab` legal suffix, strip a trailing `aktiebolag` legal suffix, then
remove all whitespace — in exactly the source's order. -/
def cleanCompanyName (s : String) : String :=
  removeAllWS (stripSuffixAktiebolag (stripSuffixAB (jsToLower s)))

/-- The `email.split('@')[1].toLowerCase()` computation of `extractDomain`:
the segment between the first and second `@` (the whole remainder when there
is a single `@`), lowercased. -/
def emailDomainOf (email : String) : String :=
  jsToLower ⟨(splitAtChar '@' email.data).getD 1 []⟩

/-- Result record of `extractDomain` (the two fields it adds to its input). -/
structure DomainResult where
  extracted_domain : Option String
  domain_source : String
  deriving Repr, DecidableEq

/-- JavaScript falsiness of the `domain` variable of `extractDomain`:
it is `null` initially and can be set to a string, and both `null` and the
empty string are falsy. -/
def jsStrOptFalsy : Option String → Bool
  | none => true
  | some s => decide (s = "")

/-- The first step of `extractDomain`: the `domain`/`domainSource` pair after
the email block.  When the email is truthy and contains `@`, a domain not in
the deny-list is stored with source `email` — even when that domain is the
empty string (email ending in `@`); otherwise the pair keeps its initial
`null`/`none` values. -/
def emailDomainStep (data : FormData) : Option String × String :=
  if data.email ≠ "" && strContains data.email "@" then
    let emailDomain := emailDomainOf data.email
    if personalDomains.contains emailDomain then (none, "none")
    else (some emailDomain, "email")
  else (none, "none")

/-- Embedding of `extractDomain` from `src/utils/validator.js`.  Only the
`email` and `company_name` fields of the input are read; the result records
the two fields the source adds to the spread input.  The fallback guard is
the source's `if (!domain && data.company_name)`: `domain` is falsy both when
the email block left it `null` and when it stored the empty string, so a
present company name overwrites an empty email domain. -/
def extractDomain (data : FormData) : DomainResult :=
  let step1 := emailDomainStep data
  if jsStrOptFalsy step1.1 && data.company_name ≠ "" then
    { extracted_domain := some (cleanCompanyName data.company_name ++ ".se")
      domain_source := "guessed" }
  else
    { extracted_domain := step1.1, domain_source := step1.2 }

/-- Scenario B input of the specification (also the repository's own test
"should return high score for complete valid lead" in
`tests/validator.test.js`). -/
def scenarioB : FormData :=
  { full_name := "Anna Svensson"
    email := "anna@techcompany.se"
    phone := "+46 70 123 4567"
    company_name := "Tech Company AB"
    needs_description := "Vi behöver en junior utvecklare med erfarenhet av React och Node.js för vårt växande team." }

/-- A lead whose description fires exactly one spam indicator (the repository's
test "should not flag as spam with single indicator"). -/
def casinoLead : FormData :=
  { full_name := "Erik Johansson"
    email := "erik@company.se"
    phone := "+46 70 123 4567"
    company_name := "Company AB"
    needs_description := "We need help with our casino software development project for compliance." }

/-- At most five of the six entries of the validation record can be strictly
equal to `true`: the fourth entry is a number. -/
theorem validFieldsOf_le_five (d : ValidationDetails) : validFieldsOf d ≤ 5 := by
  rcases d with ⟨e, p, c, n, a, f⟩
  cases e <;> cases p <;> cases c <;> cases a <;> cases f <;>
    simp only [validFieldsOf, validationValues, List.countP, List.countP.go,
      JSVal.isTrue, cond_true, cond_false] <;> omega

/-- C9: for every input, the validation score of `validateLead` lies in
`{0, 17, 33, 50, 67, 83}` and never exceeds 83, because the
`needs_description_length` entry of the validation record is a number rather
than a boolean and the score counts only entries strictly equal to `true`. -/
theorem validateLead_score_mem_fixed_set (lead : FormData) :
    (validateLead lead).validation_score ∈ ([0, 17, 33, 50, 67, 83] : List Int) ∧
    (validateLead lead).validation_score ≤ 83 := by
  have h : (validateLead lead).validation_score
      = validationScoreOfCount (validFieldsOf (validateLead lead).validation_details) := rfl
  rw [h]
  have hk := validFieldsOf_le_five (validateLead lead).validation_details
  revert hk
  generalize validFieldsOf (validateLead lead).validation_details = k
  intro hk
  interval_cases k <;> exact ⟨by decide, by decide⟩

/-- C3: evaluation of `validateLead` at the Scenario B input.  The
specification and the repository's own test require `validation_score = 100`
here, but the code computes 83: all five boolean checks pass, yet the
`needs_description_length` entry is a number and is not counted, so
`validFields = 5` and `round(5/6*100) = 83`. -/
theorem scenarioB_validation_score_eq_83 :
    (validateLead scenarioB).validation_score = 83 ∧
    (validateLead scenarioB).is_likely_spam = false ∧
    validFieldsOf (validateLead scenarioB).validation_details = 5 := by
  refine ⟨by decide, by decide, by decide⟩

/-- C7: `validateLead` sets `is_likely_spam` exactly when at least two of the
four spam indicators fire; a single indicator alone never sets the flag. -/
theorem validateLead_spam_iff_two_indicators (lead : FormData) :
    ((validateLead lead).is_likely_spam = true ↔ 2 ≤ spamIndicatorCount lead) ∧
    (spamIndicatorCount lead ≤ 1 → (validateLead lead).is_likely_spam = false) := by
  have hflag : (validateLead lead).is_likely_spam = decide (2 ≤ spamIndicatorCount lead) := rfl
  constructor
  · rw [hflag]
    exact decide_eq_true_iff
  · intro h1
    rw [hflag]
    simp only [decide_eq_false_iff_not]
    omega

/-- C7 witness: the casino lead fires exactly one indicator and is not
flagged. -/
theorem validateLead_spam_iff_two_indicators_witness :
    spamIndicatorCount casinoLead = 1 ∧ (validateLead casinoLead).is_likely_spam = false :=
  ⟨by decide, (validateLead_spam_iff_two_indicators casinoLead).2 (by decide)⟩

/-- C5 counterexample: the original claim says a non-deny-listed email domain
is always used with source `email`, but for the email `a@` the domain part is
the empty string — not in the deny-list, yet falsy — so with a company name
present the source falls through to the guessed branch. -/
theorem extractDomain_empty_domain_cex :
    (("a@" : String) ≠ "" ∧ strContains "a@" "@" = true ∧
      emailDomainOf "a@" ∉ personalDomains) ∧
    extractDomain { email := "a@", company_name := "X" } ≠
      { extracted_domain := some (emailDomainOf "a@"), domain_source := "email" } ∧
    extractDomain { email := "a@", company_name := "X" } =
      { extracted_domain := some "x.se", domain_source := "guessed" } :=
  ⟨⟨by decide, by decide, by decide⟩, by decide, by decide⟩

/-- C5 (amended): `extractDomain` resolution order — a non-deny-listed email
domain is used with source `email` when it is non-empty (or when there is no
company name to fall back to: the empty domain is falsy in the source's
`if (!domain && data.company_name)` re-check, so a present company name
overwrites it); otherwise a nonempty company name yields the cleaned name
with the default country TLD and source `guessed`; when no email domain was
stored at all and no company name is present the result is `null`/`none`.
The final conjunct is Scenario C. -/
theorem extractDomain_resolution (data : FormData) :
    ((data.email ≠ "" ∧ strContains data.email "@" = true ∧
        emailDomainOf data.email ∉ personalDomains ∧
        (emailDomainOf data.email ≠ "" ∨ data.company_name = "")) →
      extractDomain data =
        { extracted_domain := some (emailDomainOf data.email), domain_source := "email" }) ∧
    ((data.email = "" ∨ strContains data.email "@" = false ∨
        emailDomainOf data.email ∈ personalDomains ∨ emailDomainOf data.email = "") →
      data.company_name ≠ "" →
      extractDomain data =
        { extracted_domain := some (cleanCompanyName data.company_name ++ ".se")
          domain_source := "guessed" }) ∧
    ((data.email = "" ∨ strContains data.email "@" = false ∨
        emailDomainOf data.email ∈ personalDomains) →
      data.company_name = "" →
      extractDomain data = { extracted_domain := none, domain_source := "none" }) ∧
    extractDomain { email := "user@gmail.com", company_name := "Nordea AB" } =
      { extracted_domain := some "nordea.se", domain_source := "guessed" } := by
  refine ⟨?_, ?_, ?_, by decide⟩
  · rintro ⟨h1, h2, h3, h4⟩
    have hstep : emailDomainStep data = (some (emailDomainOf data.email), "email") := by
      simp [emailDomainStep, h1, h2, h3]
    rcases h4 with h4 | h4
    · simp [extractDomain, hstep, jsStrOptFalsy, h4]
    · simp [extractDomain, hstep, jsStrOptFalsy, h4]
  · intro h hc
    have hf : jsStrOptFalsy (emailDomainStep data).1 = true := by
      rcases h with h | h | h | h
      · simp [emailDomainStep, jsStrOptFalsy, h]
      · simp [emailDomainStep, jsStrOptFalsy, h]
      · by_cases hE : data.email = ""
        · simp [emailDomainStep, jsStrOptFalsy, hE]
        · by_cases hA : strContains data.email "@" = true
          · simp [emailDomainStep, jsStrOptFalsy, hE, hA, h]
          · rw [Bool.not_eq_true] at hA
            simp [emailDomainStep, jsStrOptFalsy, hE, hA]
      · by_cases hE : data.email = ""
        · simp [emailDomainStep, jsStrOptFalsy, hE]
        · by_cases hA : strContains data.email "@" = true
          · by_cases hP : emailDomainOf data.email ∈ personalDomains
            · simp [emailDomainStep, jsStrOptFalsy, hE, hA, hP]
            · simp [emailDomainStep, jsStrOptFalsy, hE, hA, h, personalDomains]
          · rw [Bool.not_eq_true] at hA
            simp [emailDomainStep, jsStrOptFalsy, hE, hA]
    simp [extractDomain, hf, hc]
  · intro h hc
    have hstep : emailDomainStep data = (none, "none") := by
      rcases h with h | h | h
      · simp [emailDomainStep, h]
      · simp [emailDomainStep, h]
      · by_cases hE : data.email = ""
        · simp [emailDomainStep, hE]
        · by_cases hA : strContains data.email "@" = true
          · simp [emailDomainStep, hE, hA, h]
          · rw [Bool.not_eq_true] at hA
            simp [emailDomainStep, hE, hA]
    simp [extractDomain, hstep, jsStrOptFalsy, hc]

/-- C5 witness: Scenario C through the `guessed` branch of the resolution
theorem. -/
theorem extractDomain_resolution_witness :
    extractDomain { email := "user@gmail.com", company_name := "Nordea AB" } =
      { extracted_domain := some "nordea.se", domain_source := "guessed" } :=
  (extractDomain_resolution { email := "user@gmail.com", company_name := "Nordea AB" }).2.1
    (Or.inr (Or.inr (Or.inl (by decide)))) (by decide)

/-- A parsed JSON value (`JSON.parse` output), as consumed by the zod
schemas.  Numbers are exact rationals. -/
inductive Json where
  | null
  | bool (b : Bool)
  | num (q : Rat)
  | str (s : String)
  | arr (elems : List Json)
  | obj (fields : List (String × Json))

/-- Property lookup on a JSON object's field list (first match). -/
def lookupField : List (String × Json) → String → Option Json
  | [], _ => none
  | (k', v) :: rest, k => if k' = k then some v else lookupField rest k

/-- `z.string()`: accept exactly JSON strings. -/
def asString? : Json → Option String
  | .str s => some s
  | _ => none

/-- `z.number()`: accept exactly JSON numbers. -/
def asNum? : Json → Option Rat
  | .num q => some q
  | _ => none

/-- `z.array(z.string())`: accept arrays whose members are all strings. -/
def asStringList? : Json → Option (List String)
  | .arr es => es.mapM asString?
  | _ => none

/-- The four-tag classification enum of `AIScoreResultSchema`. -/
def classificationEnum : List String :=
  ["valid_lead", "invalid_lead", "likely_candidate", "likely_spam"]

/-- Validated AI scoring result (`AIScoreResult` in `src/types/index.ts`). -/
structure AIScoreResult where
  lead_score : Rat
  role_category : String
  classification : String
  key_requirements : List String
  ai_reasoning : String
  deriving Repr, DecidableEq

/-- Embedding of `AIScoreResultSchema.safeParse` from
`src/services/aiService.ts`: an object with `lead_score` a number in
`[1, 100]`, `role_category` a string, `classification` in the four-tag enum,
`key_requirements` an array of strings, and `ai_reasoning` a string (zod
imposes no minimum length on it). -/
def AIScoreResultSchemaParse (j : Json) : Option AIScoreResult :=
  match j with
  | .obj fs =>
      match lookupField fs "lead_score", lookupField fs "role_category",
            lookupField fs "classification", lookupField fs "key_requirements",
            lookupField fs "ai_reasoning" with
      | some js, some jr, some jc, some jk, some ja =>
          match asNum? js, asString? jr, asString? jc, asStringList? jk, asString? ja with
          | some score, some role, some cls, some reqs, some reasoning =>
              if 1 ≤ score ∧ score ≤ 100 ∧ cls ∈ classificationEnum then
                some ⟨score, role, cls, reqs, reasoning⟩
              else none
          | _, _, _, _, _ => none
      | _, _, _, _, _ => none
  | _ => none

/-- Validated job-ad data (`JobAdData` in `src/types/index.ts`). -/
structure JobAdData where
  title : String
  company : String
  description : String
  location : String
  category : String
  external_url : String
  posted_date : String
  deriving Repr, DecidableEq

/-- Abstraction of zod's `.url()` refinement (`new URL(s)` succeeding):
a nonempty scheme followed by `://`.  No claim depends on the exact URL
grammar; the check only needs to be a schema gate that can fail. -/
def urlShaped (s : String) : Bool :=
  strContains s "://" && !charsPrefix "://".data s.data

/-- Embedding of `JobAdDataSchema.safeParse` from `src/services/aiService.ts`:
seven string fields, of which `title`, `company`, `description`, `location`
and `category` must be nonempty (`min(1)`) and `external_url` must be a URL. -/
def JobAdDataSchemaParse (j : Json) : Option JobAdData :=
  match j with
  | .obj fs =>
      match lookupField fs "title", lookupField fs "company",
            lookupField fs "description", lookupField fs "location",
            lookupField fs "category", lookupField fs "external_url",
            lookupField fs "posted_date" with
      | some jt, some jco, some jd, some jl, some jca, some ju, some jp =>
          match asString? jt, asString? jco, asString? jd, asString? jl,
                asString? jca, asString? ju, asString? jp with
          | some t, some co, some d, some l, some ca, some u, some p =>
              if t ≠ "" ∧ co ≠ "" ∧ d ≠ "" ∧ l ≠ "" ∧ ca ≠ "" ∧ urlShaped u then
                some ⟨t, co, d, l, ca, u, p⟩
              else none
          | _, _, _, _, _, _, _ => none
      | _, _, _, _, _, _, _ => none
  | _ => none

/-- JavaScript `String.prototype.trim`. -/
def trimJS (s : String) : String :=
  dropTrailingWS ⟨s.data.dropWhile jsWhitespace⟩

/-- One application of `.replace(/^```json\s*/i, '')`: if the string starts
with a code fence marker `` ```json `` (`json` case-insensitively), remove it
together with the following whitespace run. -/
def stripLeadingJsonFence (s : String) : String :=
  if s.data.length ≥ 7 && decide (jsToLower ⟨s.data.take 7⟩ = "```json") then
    ⟨(s.data.drop 7).dropWhile jsWhitespace⟩
  else s

/-- One application of `.replace(/\s*```\s*$/, '')`: if the string ends with
a closing fence `` ``` `` possibly surrounded by whitespace, remove the fence
and that whitespace. -/
def stripTrailingFence (s : String) : String :=
  let t := dropTrailingWS s
  if charsEndWith t.data "```".data then dropTrailingWS (dropRightChars t 3) else s

/-- The `cleanContent` computation of `scoreLead` / `generateJobAd`: strip a
leading `` ```json `` fence, strip a trailing fence, then trim. -/
def cleanAIContent (content : String) : String :=
  trimJS (stripTrailingFence (stripLeadingJsonFence content))

/-- Post-processing of `scoreLead` on the completion-service output text,
parameterized by the `JSON.parse` oracle: clean fences, parse, validate
against `AIScoreResultSchema`; any violation is a thrown error (wrapped by
the function's catch into `AI scoring failed: ...`), never a default result. -/
def scoreLeadFromContent (jsonParse : String → Except String Json)
    (content : String) : Except String AIScoreResult :=
  match jsonParse (cleanAIContent content) with
  | .error e => .error ("AI scoring failed: " ++ e)
  | .ok j =>
      match AIScoreResultSchemaParse j with
      | some r => .ok r
      | none => .error "AI scoring failed: Invalid AI response structure"

/-- Post-processing of `generateJobAd`, identical in shape to
`scoreLeadFromContent` but against `JobAdDataSchema`. -/
def generateJobAdFromContent (jsonParse : String → Except String Json)
    (content : String) : Except String JobAdData :=
  match jsonParse (cleanAIContent content) with
  | .error e => .error ("Job ad generation failed: " ++ e)
  | .ok j =>
      match JobAdDataSchemaParse j with
      | some ad => .ok ad
      | none => .error "Job ad generation failed: Invalid job ad response structure"

/-- A schema-conforming scoring response whose `ai_reasoning` is the empty
string. -/
def cexScoreJson : Json :=
  .obj [("lead_score", .num 50), ("role_category", .str "Tech"),
        ("classification", .str "valid_lead"), ("key_requirements", .arr []),
        ("ai_reasoning", .str "")]

/-- The `ai_reasoning` field of a successfully schema-validated value. -/
def reasoningOf? (j : Json) : Option String :=
  (AIScoreResultSchemaParse j).map (fun r => r.ai_reasoning)

/-- A constant `JSON.parse` oracle returning `cexScoreJson`. -/
def constParseCex : String → Except String Json := fun _ => .ok cexScoreJson

/-- C4 counterexample: the schema does not require a non-empty reasoning
string — `AIScoreResultSchema` accepts a response whose `ai_reasoning` is
`""` (its `ai_reasoning` is `z.string()` with no `.min(1)`). -/
theorem aiSchema_accepts_empty_reasoning :
    (AIScoreResultSchemaParse cexScoreJson).isSome = true ∧
    reasoningOf? cexScoreJson = some "" :=
  ⟨by decide, by decide⟩

/-- C4 (amended): `scoreLead` strips code-fence wrapping, parses the result,
and validates it against a strict schema requiring `lead_score` in `[1, 100]`,
`classification` in the four-tag enum, and `ai_reasoning` a string (possibly
empty — non-emptiness is not enforced); any schema violation makes the stage
throw rather than return a default classification. -/
theorem scoreLead_strict_schema (jsonParse : String → Except String Json)
    (content : String) (j : Json) :
    (jsonParse (cleanAIContent content) = .ok j → AIScoreResultSchemaParse j = none →
      scoreLeadFromContent jsonParse content =
        .error "AI scoring failed: Invalid AI response structure") ∧
    (∀ r, jsonParse (cleanAIContent content) = .ok j → AIScoreResultSchemaParse j = some r →
      scoreLeadFromContent jsonParse content = .ok r) ∧
    (∀ r, AIScoreResultSchemaParse j = some r →
      1 ≤ r.lead_score ∧ r.lead_score ≤ 100 ∧ r.classification ∈ classificationEnum) ∧
    cleanAIContent "```json\n[1, 2]\n```" = "[1, 2]" := by
  refine ⟨?_, ?_, ?_, by decide⟩
  · intro h1 h2
    simp [scoreLeadFromContent, h1, h2]
  · intro r h1 h2
    simp [scoreLeadFromContent, h1, h2]
  · intro r hr
    unfold AIScoreResultSchemaParse at hr
    repeat' split at hr
    all_goals try cases hr
    all_goals simp_all

/-- C4 witness: a schema-conforming parse goes through `scoreLeadFromContent`
unchanged. -/
theorem scoreLead_strict_schema_witness :
    scoreLeadFromContent constParseCex "irrelevant" =
      .ok ⟨50, "Tech", "valid_lead", [], ""⟩ :=
  (scoreLead_strict_schema constParseCex "irrelevant" cexScoreJson).2.1
    ⟨50, "Tech", "valid_lead", [], ""⟩ rfl (by decide)

/-- The `{data, error}` shape resolved by `resend.emails.send`. -/
structure ResendSendResult where
  data : Option String
  error : Option String
  deriving Repr, DecidableEq

/-- Truthiness of `config.adminAlert?.email`: configured only when present
and nonempty. -/
def alertConfigured (adminAlertEmail : Option String) : Bool :=
  match adminAlertEmail with
  | none => false
  | some a => decide (a ≠ "")

/-- The body of `sendAdminAlert` from `src/services/emailService.js` before
its enclosing catch: skip and return `null` when no operator address is
configured; propagate a thrown send; return `null` on a provider error
(logged, swallowed); return the provider data on success (accessing `data.id`
of a `null` data would itself throw, landing in the catch). -/
def sendAdminAlertBody (adminAlertEmail : Option String)
    (send : Except String ResendSendResult) : Except String (Option String) :=
  if !alertConfigured adminAlertEmail then .ok none
  else
    match send with
    | .error e => .error e
    | .ok r =>
        match r.error with
        | some _ => .ok none
        | none =>
            match r.data with
            | some d => .ok (some d)
            | none => .error "TypeError: data is null"

/-- Embedding of `sendAdminAlert`: the body wrapped in the source's
catch-all, which logs and returns `null`. -/
def sendAdminAlert (adminAlertEmail : Option String)
    (send : Except String ResendSendResult) : Option String :=
  match sendAdminAlertBody adminAlertEmail send with
  | .ok v => v
  | .error _ => none

/-- C10: `sendAdminAlert` never throws — it returns the provider response or
`null`: `null` when no operator address is configured (no send attempted, the
body short-circuits), `null` when the send throws or the provider reports an
error (both swallowed), and it returns `some d` only when the provider
succeeded with data `d`. -/
theorem sendAdminAlert_never_throws (adminAlertEmail : Option String)
    (send : Except String ResendSendResult) :
    (alertConfigured adminAlertEmail = false →
      sendAdminAlertBody adminAlertEmail send = .ok none ∧
      sendAdminAlert adminAlertEmail send = none) ∧
    (∀ e, send = .error e → sendAdminAlert adminAlertEmail send = none) ∧
    (∀ r e, send = .ok r → r.error = some e → sendAdminAlert adminAlertEmail send = none) ∧
    (∀ d, sendAdminAlert adminAlertEmail send = some d →
      send = .ok { data := some d, error := none }) ∧
    (∀ e, sendAdminAlertBody adminAlertEmail send = .error e →
      sendAdminAlert adminAlertEmail send = none) := by
  refine ⟨?_, ?_, ?_, ?_, ?_⟩
  · intro h
    simp [sendAdminAlert, sendAdminAlertBody, h]
  · intro e h
    subst h
    by_cases hc : alertConfigured adminAlertEmail <;>
      simp [sendAdminAlert, sendAdminAlertBody, hc]
  · intro r e h1 h2
    subst h1
    by_cases hc : alertConfigured adminAlertEmail <;>
      simp [sendAdminAlert, sendAdminAlertBody, hc, h2]
  · intro d h
    by_cases hc : alertConfigured adminAlertEmail
    · rcases send with e | ⟨rd, re⟩
      · simp [sendAdminAlert, sendAdminAlertBody, hc] at h
      · rcases re with _ | e
        · rcases rd with _ | d'
          · simp [sendAdminAlert, sendAdminAlertBody, hc] at h
          · simp [sendAdminAlert, sendAdminAlertBody, hc] at h
            simp [h]
        · simp [sendAdminAlert, sendAdminAlertBody, hc] at h
    · simp [sendAdminAlert, sendAdminAlertBody, hc] at h
  · intro e h
    simp [sendAdminAlert, h]

/-- C10 witness: with no configured operator address the alert is skipped and
the result is `null`, via the theorem's first conjunct. -/
theorem sendAdminAlert_never_throws_witness :
    sendAdminAlertBody none (.error "smtp down") = .ok none ∧
    sendAdminAlert none (.error "smtp down") = none :=
  (sendAdminAlert_never_throws none (.error "smtp down")).1 (by decide)

/-- A row of the `companies` table (the columns touched by
`find_or_create_company`). -/
structure CompanyRow where
  id : Nat
  name : String
  domain : Option String
  source : String
  deriving Repr, DecidableEq

/-- The `companies` table together with the id supply for new rows. -/
structure CompanyDB where
  rows : List CompanyRow
  nextId : Nat
  deriving Repr, DecidableEq

/-- The first lookup of `find_or_create_company`: `WHERE domain = p_domain
LIMIT 1`, performed only when `p_domain` is non-null (a SQL `=` comparison
with `NULL` matches nothing). -/
def domainMatch (db : CompanyDB) (p_domain : Option String) : Option CompanyRow :=
  match p_domain with
  | some d => db.rows.find? (fun r => r.domain = some d)
  | none => none

/-- The second lookup of `find_or_create_company`:
`WHERE LOWER(name) = LOWER(p_name) LIMIT 1`. -/
def nameMatch (db : CompanyDB) (p_name : String) : Option CompanyRow :=
  db.rows.find? (fun r => jsToLower r.name = jsToLower p_name)

/-- Embedding of the SQL stored procedure `find_or_create_company`
(IMPLEMENTATION.md), which `findOrCreateCompany` in
`src/services/supabaseService.ts` invokes via RPC: when a non-null domain is
supplied, look the domain up first; otherwise (or on a miss) look up the name
case-insensitively; only then insert a new row.  `LIMIT 1` on an unordered
select is modelled as first-in-list. -/
def find_or_create_company (db : CompanyDB) (p_name : String)
    (p_domain : Option String) (p_source : String) : Nat × CompanyDB :=
  match domainMatch db p_domain with
  | some r => (r.id, db)
  | none =>
      match nameMatch db p_name with
      | some r => (r.id, db)
      | none =>
          (db.nextId,
           { rows := db.rows ++ [{ id := db.nextId, name := p_name,
                                   domain := p_domain, source := p_source }]
             nextId := db.nextId + 1 })

/-- C6: `find_or_create_company` resolves company identity in the order
domain match (when a domain is supplied), then case-insensitive name match,
then creation of a new row; consequently two leads with the same domain and
differently-capitalized names resolve to the same company without a second
row being created — from an empty table, exactly one row exists afterwards. -/
theorem findOrCreateCompany_resolution (db : CompanyDB)
    (name1 name2 src1 src2 : String) (dom : Option String) (d : String) :
    (∀ r, domainMatch db dom = some r →
      find_or_create_company db name1 dom src1 = (r.id, db)) ∧
    (domainMatch db dom = none → ∀ r, nameMatch db name1 = some r →
      find_or_create_company db name1 dom src1 = (r.id, db)) ∧
    (domainMatch db dom = none → nameMatch db name1 = none →
      find_or_create_company db name1 dom src1 =
        (db.nextId,
         { rows := db.rows ++ [{ id := db.nextId, name := name1, domain := dom, source := src1 }]
           nextId := db.nextId + 1 })) ∧
    (jsToLower name1 = jsToLower name2 →
      find_or_create_company
          (find_or_create_company db name1 (some d) src1).2 name2 (some d) src2 =
        find_or_create_company db name1 (some d) src1 ∧
      (find_or_create_company db name1 (some d) src1).2.rows.length ≤ db.rows.length + 1) ∧
    (find_or_create_company
        (find_or_create_company ⟨[], 0⟩ "Nordea" (some "nordea.se") "website_form").2
        "NORDEA" (some "nordea.se") "website_form").2.rows.length = 1 := by
  refine ⟨?_, ?_, ?_, ?_, by decide⟩
  · intro r hr
    simp [find_or_create_company, hr]
  · intro hd r hn
    simp [find_or_create_company, hd, hn]
  · intro hd hn
    simp [find_or_create_company, hd, hn]
  · intro h
    cases hd : domainMatch db (some d) with
    | some r =>
      have h1 : find_or_create_company db name1 (some d) src1 = (r.id, db) := by
        simp [find_or_create_company, hd]
      rw [h1]
      exact ⟨by simp [find_or_create_company, hd], by simp⟩
    | none =>
      cases hn : nameMatch db name1 with
      | some r =>
        have h1 : find_or_create_company db name1 (some d) src1 = (r.id, db) := by
          simp [find_or_create_company, hd, hn]
        have hn2 : nameMatch db name2 = some r := by
          unfold nameMatch at hn ⊢
          rw [← h]
          exact hn
        rw [h1]
        exact ⟨by simp [find_or_create_company, hd, hn2], by simp⟩
      | none =>
        have h1 : find_or_create_company db name1 (some d) src1 =
            (db.nextId,
             { rows := db.rows ++ [{ id := db.nextId, name := name1,
                                     domain := some d, source := src1 }]
               nextId := db.nextId + 1 }) := by
          simp [find_or_create_company, hd, hn]
        rw [h1]
        have hd' : db.rows.find? (fun r => r.domain = some d) = none := by
          simpa [domainMatch] using hd
        constructor
        · have hd2 : domainMatch
              ({ rows := db.rows ++ [{ id := db.nextId, name := name1,
                                       domain := some d, source := src1 }]
                 nextId := db.nextId + 1 } : CompanyDB) (some d) =
              some { id := db.nextId, name := name1, domain := some d, source := src1 } := by
            simp [domainMatch, List.find?_append, hd']
          simp [find_or_create_company, hd2]
        · simp

/-- C6 witness: two submissions with domain `nordea.se` and names differing
only in capitalization, against a database with five reserved ids and no
rows: the second run is a no-op returning the same id, and at most one row
was created. -/
theorem findOrCreateCompany_resolution_witness :
    jsToLower "Nordea" = jsToLower "NORDEA" ∧
    (find_or_create_company
        (find_or_create_company ⟨[], 5⟩ "Nordea" (some "nordea.se") "website_form").2
        "NORDEA" (some "nordea.se") "website_form" =
      find_or_create_company ⟨[], 5⟩ "Nordea" (some "nordea.se") "website_form" ∧
     (find_or_create_company ⟨[], 5⟩ "Nordea" (some "nordea.se") "website_form").2.rows.length ≤
       (⟨[], 5⟩ : CompanyDB).rows.length + 1) :=
  ⟨by decide,
   (findOrCreateCompany_resolution ⟨[], 5⟩ "Nordea" "NORDEA" "website_form" "website_form"
      (some "nordea.se") "nordea.se").2.2.2.1 (by decide)⟩

deriving instance DecidableEq for Except

/-- An external call issued by the webhook pipeline, recorded in order.
`aiScoreCall` and `jobAdCall` are the two completion-service calls; the rest
are persistence and notification calls with the arguments relevant to the
claims. -/
inductive Effect where
  | aiScoreCall
  | jobAdCall
  | insertRejected (lead : FormData) (classification : String) (reasoning : String)
  | insertCandidate (lead : FormData) (reasoning : String)
  | focCompany (name : String) (domain : Option String)
  | createSignal (companyId : String)
  | upsertContact (companyId : String) (email : String)
  | createJobAdRecord (companyId : String) (title : String)
  | sendLeadEmail (email : String)
  | adminAlert (lead : FormData) (errMsg : String)
  deriving Repr, DecidableEq

/-- Outcomes of the external collaborators for one pipeline run, as seen by
`POST /webhook`.  Errors carry the thrown message (the services wrap their
failures into `Failed to ...` messages before rethrowing; the pipeline treats
them opaquely).  `scoreJson` / `jobAdJson` are the outcome of the completion
call plus `JSON.parse` of the cleaned content; the zod schema validation step
is part of the pipeline model itself.  `fallbackInsert` and
`adminAlertOutcome` are the outcomes of the two best-effort calls in the
catch block; the source catches both and only logs, so no other part of the
run depends on them. -/
structure PipelineEnv where
  scoreJson : Except String Json
  insertRejectedLead : Except String Unit
  insertCandidateLead : Except String Unit
  focCompany : Except String String
  createSignal : Except String Unit
  upsertContact : Except String Unit
  jobAdJson : Except String Json
  createJobAdRecord : Except String Unit
  sendEmailToLead : Except String Unit
  fallbackInsert : Except String Unit
  adminAlertOutcome : Except String Unit

/-- The response object of `POST /webhook` (`WebhookSuccessResponse` in
`src/types/index.ts`).  `processingTime` is wall-clock time and is omitted. -/
structure WebhookResponse where
  success : Bool
  message : String
  classification : Option String := none
  lead_score : Option Rat := none
  job_ad_title : Option String := none
  reason : Option String := none
  deriving Repr, DecidableEq

/-- The schema-validation tail of `scoreLead` on the parsed completion
output (compare `scoreLeadFromContent`, which also models the fence
stripping): a violation is a thrown error, never a default. -/
def scoreLeadRun (scoreJson : Except String Json) : Except String AIScoreResult :=
  match scoreJson with
  | .error e => .error e
  | .ok j =>
      match AIScoreResultSchemaParse j with
      | some r => .ok r
      | none => .error "AI scoring failed: Invalid AI response structure"

/-- The schema-validation tail of `generateJobAd` on the parsed completion
output. -/
def generateJobAdRun (jobAdJson : Except String Json) : Except String JobAdData :=
  match jobAdJson with
  | .error e => .error e
  | .ok j =>
      match JobAdDataSchemaParse j with
      | some ad => .ok ad
      | none => .error "Job ad generation failed: Invalid job ad response structure"

/-- The `valid_lead` case of the classification switch (steps 6–14 of the
handler): extract domain, find-or-create company, create signal, prepare
contact data (which throws when the email is missing), upsert contact and
generate the job ad (issued together by `Promise.all`; when both fail the
source surfaces whichever rejected first — the model picks the upsert),
persist the job-ad record, send the confirmation email, and answer with the
lead score and the draft title. -/
def validLeadPath (env : PipelineEnv) (fd : FormData) (v : ValidatedLead)
    (ai : AIScoreResult) : List Effect × Except String WebhookResponse :=
  let dd := extractDomain v.toFormData
  let focEff := Effect.focCompany fd.company_name dd.extracted_domain
  match env.focCompany with
  | .error e => ([focEff], .error e)
  | .ok companyId =>
      match env.createSignal with
      | .error e => ([focEff, .createSignal companyId], .error e)
      | .ok _ =>
          if fd.email = "" then
            ([focEff, .createSignal companyId], .error "No email provided for contact")
          else
            let contactEmail := trimJS (jsToLower fd.email)
            let parEff := [Effect.upsertContact companyId contactEmail, Effect.jobAdCall]
            match env.upsertContact with
            | .error e => (focEff :: .createSignal companyId :: parEff, .error e)
            | .ok _ =>
                match generateJobAdRun env.jobAdJson with
                | .error e => (focEff :: .createSignal companyId :: parEff, .error e)
                | .ok jobAd =>
                    match env.createJobAdRecord with
                    | .error e =>
                        (focEff :: .createSignal companyId :: parEff ++
                          [.createJobAdRecord companyId jobAd.title], .error e)
                    | .ok _ =>
                        match env.sendEmailToLead with
                        | .error e =>
                            (focEff :: .createSignal companyId :: parEff ++
                              [.createJobAdRecord companyId jobAd.title,
                               .sendLeadEmail fd.email], .error e)
                        | .ok _ =>
                            (focEff :: .createSignal companyId :: parEff ++
                              [.createJobAdRecord companyId jobAd.title,
                               .sendLeadEmail fd.email],
                             .ok { success := true
                                   message := "Valid lead processed successfully"
                                   classification := some "valid_lead"
                                   lead_score := some ai.lead_score
                                   job_ad_title := some jobAd.title })

/-- The classification switch of the handler (step 5).  The classification is
a string; a tag outside the four known ones falls to the `default` branch,
which throws. -/
def routeClassified (env : PipelineEnv) (fd : FormData) (v : ValidatedLead)
    (ai : AIScoreResult) : List Effect × Except String WebhookResponse :=
  if ai.classification = "valid_lead" then
    validLeadPath env fd v ai
  else if ai.classification = "invalid_lead" then
    match env.insertRejectedLead with
    | .error e => ([.insertRejected fd ai.classification ai.ai_reasoning], .error e)
    | .ok _ =>
        ([.insertRejected fd ai.classification ai.ai_reasoning],
         .ok { success := true
               message := "Lead classified as invalid"
               classification := some "invalid_lead"
               reason := some ai.ai_reasoning })
  else if ai.classification = "likely_candidate" then
    match env.insertCandidateLead with
    | .error e => ([.insertCandidate fd ai.ai_reasoning], .error e)
    | .ok _ =>
        ([.insertCandidate fd ai.ai_reasoning],
         .ok { success := true
               message := "Lead classified as job seeker"
               classification := some "likely_candidate" })
  else if ai.classification = "likely_spam" then
    match env.insertRejectedLead with
    | .error e => ([.insertRejected fd "likely_spam" ai.ai_reasoning], .error e)
    | .ok _ =>
        ([.insertRejected fd "likely_spam" ai.ai_reasoning],
         .ok { success := true
               message := "Lead classified as spam"
               classification := some "likely_spam" })
  else
    ([], .error ("Unknown classification: " ++ ai.classification))

/-- The body of the `try` block of `POST /webhook` after the request body has
been validated and structured into `fd` (steps 2–14): validate the lead,
fast-reject when the gate `validation_score > 30 && !is_likely_spam` fails
(rejected-sink write with the default arguments of the rejected-lead insert,
classification tag `spam` in the response), otherwise call the scoring agent
exactly once and dispatch on the classification. -/
def runPipeline (env : PipelineEnv) (fd : FormData) :
    List Effect × Except String WebhookResponse :=
  let v := validateLead fd
  if v.validation_score > 30 ∧ v.is_likely_spam = false then
    match scoreLeadRun env.scoreJson with
    | .error e => ([Effect.aiScoreCall], .error e)
    | .ok ai =>
        (Effect.aiScoreCall :: (routeClassified env fd v ai).1,
         (routeClassified env fd v ai).2)
  else
    match env.insertRejectedLead with
    | .error e => ([Effect.insertRejected fd "likely_spam" "N/A (Fast Reject)"], .error e)
    | .ok _ =>
        ([Effect.insertRejected fd "likely_spam" "N/A (Fast Reject)"],
         .ok { success := true
               message := "Lead received but classified as spam (fast reject)"
               classification := some "spam" })

/-- The whole `POST /webhook` handler on structured form data: the pipeline
wrapped in the catch-all of §4.7 — on any thrown fault, a best-effort write
of the original submission to the rejected sink tagged `processing_error`
with the fault message in the reasoning, a best-effort operator alert, and a
success-shaped generic response.  The outcomes of the two best-effort calls
(`env.fallbackInsert`, `env.adminAlertOutcome`) are caught and logged by the
source, so they influence neither the trace tail nor the response. -/
def handleWebhook (env : PipelineEnv) (fd : FormData) : List Effect × WebhookResponse :=
  match runPipeline env fd with
  | (tr, .ok resp) => (tr, resp)
  | (tr, .error e) =>
      (tr ++ [Effect.insertRejected fd "processing_error" ("Processing error: " ++ e),
              Effect.adminAlert fd e],
       { success := true, message := "Submission received and will be processed" })

/-- Scenario A input of the specification: gibberish phone and company, a
promotional description with a raw URL. -/
def scenarioA : FormData :=
  { full_name := "X"
    email := "spamuser@fake.com"
    phone := "abc123"
    company_name := "A"
    needs_description := "Buy now http://spamlink.com Viagra deals!" }

/-- An environment in which every external collaborator succeeds: the scoring
agent returns a schema-valid `valid_lead` response and the job-ad generator a
schema-valid draft. -/
def allOkEnv : PipelineEnv :=
  { scoreJson := .ok (.obj [("lead_score", .num 85), ("role_category", .str "Ingenjör"),
      ("classification", .str "valid_lead"), ("key_requirements", .arr [.str "React"]),
      ("ai_reasoning", .str "Clear professional need")])
    insertRejectedLead := .ok ()
    insertCandidateLead := .ok ()
    focCompany := .ok "cid-1"
    createSignal := .ok ()
    upsertContact := .ok ()
    jobAdJson := .ok (.obj [("title", .str "Junior utvecklare"), ("company", .str "Tech Company AB"),
      ("description", .str "Vi söker en junior utvecklare."), ("location", .str "Stockholm"),
      ("category", .str "Ingenjör"),
      ("external_url", .str "https://rookiework.se/jobs/junior-utvecklare"),
      ("posted_date", .str "2026-10-12")])
    createJobAdRecord := .ok ()
    sendEmailToLead := .ok ()
    fallbackInsert := .ok ()
    adminAlertOutcome := .ok () }

/-- `allOkEnv` with the scoring call failing. -/
def failingScoreEnv : PipelineEnv :=
  { allOkEnv with scoreJson := .error "AI scoring failed: connection error" }

/-- C1: when `validation_score ≤ 30` or `is_likely_spam`, the pipeline issues
no completion-service call at all (neither scoring nor job-ad generation),
issues the rejected-sink write, and — when that write succeeds — returns the
success response tagged `spam`; conversely, a submission reaches the scoring
call exactly when `validation_score > 30` and not `is_likely_spam`. -/
theorem fastReject_gate (env : PipelineEnv) (fd : FormData) :
    ((validateLead fd).validation_score ≤ 30 ∨ (validateLead fd).is_likely_spam = true →
      Effect.aiScoreCall ∉ (handleWebhook env fd).1 ∧
      Effect.jobAdCall ∉ (handleWebhook env fd).1 ∧
      Effect.insertRejected fd "likely_spam" "N/A (Fast Reject)" ∈ (handleWebhook env fd).1 ∧
      (env.insertRejectedLead = .ok () →
        handleWebhook env fd =
          ([Effect.insertRejected fd "likely_spam" "N/A (Fast Reject)"],
           { success := true
             message := "Lead received but classified as spam (fast reject)"
             classification := some "spam" }))) ∧
    ((validateLead fd).validation_score > 30 ∧ (validateLead fd).is_likely_spam = false →
      Effect.aiScoreCall ∈ (handleWebhook env fd).1) := by
  constructor
  · intro h
    have hcond : ¬((validateLead fd).validation_score > 30 ∧
        (validateLead fd).is_likely_spam = false) := by
      rintro ⟨h1, h2⟩
      rcases h with h | h
      · omega
      · rw [h] at h2
        cases h2
    cases hir : env.insertRejectedLead with
    | error e =>
      have hw : handleWebhook env fd =
          ([Effect.insertRejected fd "likely_spam" "N/A (Fast Reject)",
            Effect.insertRejected fd "processing_error" ("Processing error: " ++ e),
            Effect.adminAlert fd e],
           { success := true, message := "Submission received and will be processed" }) := by
        simp [handleWebhook, runPipeline, hcond, hir]
      rw [hw]
      refine ⟨by simp, by simp, by simp, ?_⟩
      intro hok
      exact Except.noConfusion hok
    | ok u =>
      have hw : handleWebhook env fd =
          ([Effect.insertRejected fd "likely_spam" "N/A (Fast Reject)"],
           { success := true
             message := "Lead received but classified as spam (fast reject)"
             classification := some "spam" }) := by
        simp [handleWebhook, runPipeline, hcond, hir]
      rw [hw]
      exact ⟨by simp, by simp, by simp, fun _ => rfl⟩
  · intro hcond
    cases hsc : scoreLeadRun env.scoreJson with
    | error e =>
      simp [handleWebhook, runPipeline, hcond, hsc]
    | ok ai =>
      simp [handleWebhook, runPipeline, hcond, hsc]
      cases hrt : (routeClassified env fd (validateLead fd) ai).2 <;> simp

/-- C1 witness: Scenario A fast-rejects — it fires two spam indicators and
scores 17 — with no completion call, via the gate theorem. -/
theorem fastReject_gate_witness :
    Effect.aiScoreCall ∉ (handleWebhook allOkEnv scenarioA).1 ∧
    Effect.jobAdCall ∉ (handleWebhook allOkEnv scenarioA).1 ∧
    Effect.insertRejected scenarioA "likely_spam" "N/A (Fast Reject)" ∈
      (handleWebhook allOkEnv scenarioA).1 ∧
    (allOkEnv.insertRejectedLead = .ok () →
      handleWebhook allOkEnv scenarioA =
        ([Effect.insertRejected scenarioA "likely_spam" "N/A (Fast Reject)"],
         { success := true
           message := "Lead received but classified as spam (fast reject)"
           classification := some "spam" })) :=
  (fastReject_gate allOkEnv scenarioA).1 (Or.inr (by decide))

/-- C2: whatever stage of the pipeline throws after the form data has been
structured, the handler appends to the run's trace an attempted rejected-sink
write of the original submission tagged `processing_error` carrying the fault
message, then an attempted operator alert carrying the fault and the
submission, and returns the generic success-shaped response — for every
outcome of the two best-effort calls themselves, whose failures the source
catches and only logs. -/
theorem failure_recovery (env : PipelineEnv) (fd : FormData) (e : String) :
    (runPipeline env fd).2 = .error e →
    handleWebhook env fd =
      ((runPipeline env fd).1 ++
        [Effect.insertRejected fd "processing_error" ("Processing error: " ++ e),
         Effect.adminAlert fd e],
       { success := true, message := "Submission received and will be processed" }) := by
  intro he
  rcases hrp : runPipeline env fd with ⟨tr, res⟩
  rw [hrp] at he
  simp at he
  subst he
  simp [handleWebhook, hrp]

/-- C2 witness: a failing scoring call on the Scenario B lead still yields the
generic success response with both recovery attempts in the trace. -/
theorem failure_recovery_witness :
    handleWebhook failingScoreEnv scenarioB =
      ((runPipeline failingScoreEnv scenarioB).1 ++
        [Effect.insertRejected scenarioB "processing_error"
           ("Processing error: " ++ "AI scoring failed: connection error"),
         Effect.adminAlert scenarioB "AI scoring failed: connection error"],
       { success := true, message := "Submission received and will be processed" }) :=
  failure_recovery failingScoreEnv scenarioB "AI scoring failed: connection error" (by decide)

/-- A schema-valid `JobAdDataSchema` parse yields a nonempty title
(`title: z.string().min(1)`). -/
theorem jobAdSchemaParse_title_ne (j : Json) (ad : JobAdData) :
    JobAdDataSchemaParse j = some ad → ad.title ≠ "" := by
  intro h
  unfold JobAdDataSchemaParse at h
  repeat' split at h
  all_goals try cases h
  all_goals simp_all

/-- A successful `generateJobAd` stage yields a nonempty title. -/
theorem generateJobAdRun_title_ne (x : Except String Json) (ad : JobAdData) :
    generateJobAdRun x = .ok ad → ad.title ≠ "" := by
  intro h
  unfold generateJobAdRun at h
  split at h
  · cases h
  · rename_i j
    split at h
    · rename_i ad' hp
      cases h
      exact jobAdSchemaParse_title_ne _ _ hp
    · cases h

/-- C8: every run that terminates without a fault with classification
`valid_lead` answers with a non-null `job_ad_title` that is nonempty (the
generated title is schema-validated by `JobAdDataSchema.title.min(1)`),
carries a lead score, and its trace contains the persisted job-ad record
bearing the resolved company's id and that title — issued before the
confirmation email and the response. -/
theorem validLead_roundtrip (env : PipelineEnv) (fd : FormData)
    (tr : List Effect) (resp : WebhookResponse) :
    runPipeline env fd = (tr, .ok resp) →
    resp.classification = some "valid_lead" →
    resp.job_ad_title.isSome = true ∧
    resp.job_ad_title.getD "" ≠ "" ∧
    resp.lead_score.isSome = true ∧
    (∀ cid, env.focCompany = .ok cid →
      Effect.createJobAdRecord cid (resp.job_ad_title.getD "") ∈ tr) := by
  intro hrun hcls
  unfold runPipeline at hrun
  by_cases hpass : (validateLead fd).validation_score > 30 ∧
      (validateLead fd).is_likely_spam = false
  · rw [if_pos hpass] at hrun
    cases hsc : scoreLeadRun env.scoreJson with
    | error e =>
      rw [hsc] at hrun
      simp at hrun
    | ok ai =>
      rw [hsc] at hrun
      simp only [] at hrun
      rw [Prod.mk.injEq] at hrun
      obtain ⟨htr, hres⟩ := hrun
      unfold routeClassified at htr hres
      by_cases hvl : ai.classification = "valid_lead"
      · rw [if_pos hvl] at htr hres
        unfold validLeadPath at htr hres
        cases hfoc : env.focCompany with
        | error er =>
          rw [hfoc] at hres
          simp at hres
        | ok companyId =>
          rw [hfoc] at htr hres
          simp only [] at htr hres
          cases hsig : env.createSignal with
          | error er =>
            rw [hsig] at hres
            simp at hres
          | ok u =>
            rw [hsig] at htr hres
            simp only [] at htr hres
            by_cases hem : fd.email = ""
            · rw [if_pos hem] at hres
              simp at hres
            · rw [if_neg hem] at htr hres
              cases hup : env.upsertContact with
              | error er =>
                rw [hup] at hres
                simp at hres
              | ok u2 =>
                rw [hup] at htr hres
                simp only [] at htr hres
                cases hja : generateJobAdRun env.jobAdJson with
                | error er =>
                  rw [hja] at hres
                  simp at hres
                | ok jobAd =>
                  rw [hja] at htr hres
                  simp only [] at htr hres
                  cases hcj : env.createJobAdRecord with
                  | error er =>
                    rw [hcj] at hres
                    simp at hres
                  | ok u3 =>
                    rw [hcj] at htr hres
                    simp only [] at htr hres
                    cases hse : env.sendEmailToLead with
                    | error er =>
                      rw [hse] at hres
                      simp at hres
                    | ok u4 =>
                      rw [hse] at htr hres
                      simp only [] at htr hres
                      simp at hres
                      refine ⟨?_, ?_, ?_, ?_⟩
                      · rw [← hres]
                        rfl
                      · rw [← hres]
                        simpa using generateJobAdRun_title_ne _ _ hja
                      · rw [← hres]
                        rfl
                      · intro cid hcid
                        have hcc : companyId = cid := Except.ok.inj hcid
                        subst hcc
                        subst htr
                        rw [← hres]
                        simp
      · rw [if_neg hvl] at htr hres
        by_cases hil : ai.classification = "invalid_lead"
        · rw [if_pos hil] at hres
          cases hir : env.insertRejectedLead with
          | error er =>
            rw [hir] at hres
            simp at hres
          | ok u =>
            rw [hir] at hres
            simp at hres
            rw [← hres] at hcls
            simp at hcls
        · rw [if_neg hil] at hres
          by_cases hlc : ai.classification = "likely_candidate"
          · rw [if_pos hlc] at hres
            cases hic : env.insertCandidateLead with
            | error er =>
              rw [hic] at hres
              simp at hres
            | ok u =>
              rw [hic] at hres
              simp at hres
              rw [← hres] at hcls
              simp at hcls
          · rw [if_neg hlc] at hres
            by_cases hls : ai.classification = "likely_spam"
            · rw [if_pos hls] at hres
              cases hir : env.insertRejectedLead with
              | error er =>
                rw [hir] at hres
                simp at hres
              | ok u =>
                rw [hir] at hres
                simp at hres
                rw [← hres] at hcls
                simp at hcls
            · rw [if_neg hls] at hres
              simp at hres
  · rw [if_neg hpass] at hrun
    cases hir : env.insertRejectedLead with
    | error e =>
      rw [hir] at hrun
      simp at hrun
    | ok u =>
      rw [hir] at hrun
      simp only [] at hrun
      rw [Prod.mk.injEq] at hrun
      obtain ⟨htr, hres⟩ := hrun
      simp at hres
      rw [← hres] at hcls
      simp at hcls

/-- The trace of the all-success run on the Scenario B lead. -/
def validTraceB : List Effect :=
  [Effect.aiScoreCall,
   Effect.focCompany "Tech Company AB" (some "techcompany.se"),
   Effect.createSignal "cid-1",
   Effect.upsertContact "cid-1" "anna@techcompany.se",
   Effect.jobAdCall,
   Effect.createJobAdRecord "cid-1" "Junior utvecklare",
   Effect.sendLeadEmail "anna@techcompany.se"]

/-- The response of the all-success run on the Scenario B lead. -/
def validRespB : WebhookResponse :=
  { success := true
    message := "Valid lead processed successfully"
    classification := some "valid_lead"
    lead_score := some 85
    job_ad_title := some "Junior utvecklare" }

/-- C8 witness: the all-success Scenario B run, via the round-trip theorem. -/
theorem validLead_roundtrip_witness :
    validRespB.job_ad_title.isSome = true ∧
    validRespB.job_ad_title.getD "" ≠ "" ∧
    validRespB.lead_score.isSome = true ∧
    Effect.createJobAdRecord "cid-1" (validRespB.job_ad_title.getD "") ∈ validTraceB :=
  have h := validLead_roundtrip allOkEnv scenarioB validTraceB validRespB (by decide) (by decide)
  ⟨h.1, h.2.1, h.2.2.1, h.2.2.2 "cid-1" (by decide)⟩
